import Mathlib

/-!
Verification of the mkimg (sdprompt) repository: a shallow embedding of the
parameter validation/clamping pipeline (`src/sdprompt/image_generator.py`),
the retry wrapper (`src/sdprompt/utils/retry.py`), the BFL submit/poll driver
(`src/sdprompt/bfl_generator.py`), the metadata store
(`src/sdprompt/metadata.py`, `src/sdprompt/utils/hash.py`) and the metadata
query/filter engine (`src/sdprompt/main.py`), together with theorems settling
the specification's claims about them.

Python integers are modelled as `Int`; Python float-valued fields are
modelled as exact rationals `ℚ`, and the float values produced by parsing
decimal strings as exact `mantissa / 10 ^ scale` pairs (every float literal
appearing in the modelled code — 1.0, 10.0, 7.0, the size multipliers — is
exactly representable, and every comparison and multiplication the claims
exercise is exact at the values involved).  Python `//` and Lean's `Int` `/`
agree on the non-negative operands that occur here.
-/

namespace Mkimg

/-! ## Parameter policy: `ImageParameters` (`image_generator.py` lines 33-108)

`ImageParameters` declares pydantic field constraints
(`width: ge=512 le=1024`, `height: ge=512 le=1024`, `steps: ge=10 le=50`,
`cfg_scale: ge=1.0 le=10.0`, `seed: ge=0 le=4294967294`) and an after-model
validator `validate_and_clamp` that clamps / rounds the fields, collecting a
list of adjustment messages.  Field constraints run before the validator.
-/

/-- The numeric fields of `ImageParameters` (`width`, `height`, `steps`,
`cfg_scale`, `seed`); `output_format`, `model` and `aspect_ratio` are
non-numeric enum/literal fields untouched by the clamping logic and are
carried elsewhere. -/
structure RawParams where
  width : Int
  height : Int
  steps : Int
  cfg_scale : ℚ
  seed : Option Int
  deriving Repr, DecidableEq

/-- Which dimension an adjustment message concerns. -/
inductive DimLabel where
  | width
  | height
  deriving Repr, DecidableEq

/-- One adjustment note recorded by `validate_and_clamp`, one constructor per
distinct message the Python code appends to its `adjustments` list. -/
inductive Adjustment where
  /-- "`{dim}` increased from `{old}` to 512" -/
  | dimLow (dim : DimLabel) (old : Int)
  /-- "`{dim}` decreased from `{old}` to 1024" -/
  | dimHigh (dim : DimLabel) (old : Int)
  /-- "`{dim}` adjusted from `{old}` to `{new}` to be multiple of 64" -/
  | dimRound (dim : DimLabel) (old new : Int)
  /-- "cfg_scale increased from `{old}` to 1.0" -/
  | cfgLow (old : ℚ)
  /-- "cfg_scale decreased from `{old}` to 10.0" -/
  | cfgHigh (old : ℚ)
  /-- "steps increased from `{old}` to 10" -/
  | stepsLow (old : Int)
  /-- "steps decreased from `{old}` to 50" -/
  | stepsHigh (old : Int)
  /-- "dimensions adjusted to meet minimum pixel requirement" -/
  | pixelMin
  /-- "dimensions adjusted to meet maximum pixel requirement" -/
  | pixelMax
  deriving Repr, DecidableEq

/-- Does an adjustment come from one of the two total-pixel fallback branches
(`image_generator.py` lines 92-99)? -/
def Adjustment.isPixelFallback : Adjustment → Bool
  | .pixelMin => true
  | .pixelMax => true
  | _ => false

/-- Width/height clamp stage (`image_generator.py` lines 50-63):
`if v < 512: v = 512 elif v > 1024: v = 1024`, recording the message. -/
def clampDim (dim : DimLabel) (v : Int) : Int × List Adjustment :=
  if v < 512 then (512, [.dimLow dim v])
  else if v > 1024 then (1024, [.dimHigh dim v])
  else (v, [])

/-- Multiple-of-64 rounding stage (`image_generator.py` lines 65-74):
`if v % 64 != 0: v = ((v + 32) // 64) * 64`. -/
def roundDim64 (dim : DimLabel) (v : Int) : Int × List Adjustment :=
  if v % 64 ≠ 0 then (((v + 32) / 64) * 64, [.dimRound dim v (((v + 32) / 64) * 64)])
  else (v, [])

/-- `cfg_scale` clamp stage (`image_generator.py` lines 76-82). -/
def clampCfg (v : ℚ) : ℚ × List Adjustment :=
  if v < 1 then (1, [.cfgLow v])
  else if v > 10 then (10, [.cfgHigh v])
  else (v, [])

/-- `steps` clamp stage (`image_generator.py` lines 84-90). -/
def clampSteps (v : Int) : Int × List Adjustment :=
  if v < 10 then (10, [.stepsLow v])
  else if v > 50 then (50, [.stepsHigh v])
  else (v, [])

/-- The body of `ImageParameters.validate_and_clamp`
(`image_generator.py` lines 44-105) as a pure function: the sequence of
in-place field mutations becomes a pipeline of updates, and the `adjustments`
list is returned alongside the resulting parameters, in the order the source
appends its messages (width clamp, height clamp, width rounding, height
rounding, cfg_scale clamp, steps clamp, total-pixel fallback).  `seed` is
never touched by the validator. -/
def validate_and_clamp (p : RawParams) : RawParams × List Adjustment :=
  let w1 := clampDim .width p.width
  let h1 := clampDim .height p.height
  let w2 := roundDim64 .width w1.1
  let h2 := roundDim64 .height h1.1
  let c1 := clampCfg p.cfg_scale
  let s1 := clampSteps p.steps
  let total := w2.1 * h2.1
  let pix : Int × Int × List Adjustment :=
    if total < 262144 then (512, 512, [Adjustment.pixelMin])
    else if total > 1024 * 1024 then (1024, 1024, [Adjustment.pixelMax])
    else (w2.1, h2.1, [])
  ({ p with width := pix.1, height := pix.2.1, steps := s1.1, cfg_scale := c1.1 },
    w1.2 ++ h1.2 ++ w2.2 ++ h2.2 ++ c1.2 ++ s1.2 ++ pix.2.2)

/-- The pydantic field constraints declared on `ImageParameters`
(`image_generator.py` lines 35-39): `width`/`height` in `[512, 1024]`,
`steps` in `[10, 50]`, `cfg_scale` in `[1.0, 10.0]`, `seed` (when present) in
`[0, 4294967294]`.  Pydantic validates these before the model validator
runs; a violation raises `ValidationError` from the constructor. -/
def fieldValid (p : RawParams) : Bool :=
  (512 ≤ p.width && p.width ≤ 1024) &&
  (512 ≤ p.height && p.height ≤ 1024) &&
  (10 ≤ p.steps && p.steps ≤ 50) &&
  (1 ≤ p.cfg_scale && p.cfg_scale ≤ 10) &&
  (match p.seed with
   | none => true
   | some s => 0 ≤ s && s ≤ 4294967294)

/-- How constructing `ImageParameters(...)` can fail. -/
inductive BuildError where
  /-- pydantic `ValidationError` from a violated `Field(ge=..., le=...)`
  constraint (raised before `validate_and_clamp` runs). -/
  | fieldConstraint
  /-- pydantic `ValidationError` (`frozen_instance`) raised by the first
  in-place assignment `validate_and_clamp` attempts: the model declares
  `Config.frozen = True` (`image_generator.py` lines 107-108), so the
  validator's mutations raise instead of updating — the repository's own test
  `test_parameter_constraints` expects `ImageParameters(width=1000)` (in
  range, not a multiple of 64) to raise. -/
  | frozenInstance
  deriving Repr, DecidableEq

/-- Constructing `ImageParameters(...)` with the given numeric fields:
pydantic first checks the per-field `ge`/`le` constraints, then runs
`validate_and_clamp`; since the model is frozen, construction succeeds
exactly when the validator needs no adjustment at all, and then returns the
fields unchanged. -/
def mkImageParameters (p : RawParams) : Except BuildError RawParams :=
  if fieldValid p then
    let ra := validate_and_clamp p
    if ra.2.isEmpty then .ok ra.1 else .error .frozenInstance
  else
    .error .fieldConstraint

/-! ## `ImageGenerator.generate_image` prompt validation
(`image_generator.py` lines 144-176) -/

/-- The Stability model identifiers (`config.py` `StabilityModel`). -/
inductive StabilityModel where
  | sd3Large
  | sd3LargeTurbo
  | sd3Medium
  | sd35Large
  | sd35LargeTurbo
  | sd35Medium
  deriving Repr, DecidableEq

/-- The turbo variants checked at `image_generator.py` line 159
(`SD3_LARGE_TURBO`, `SD35_LARGE_TURBO`). -/
def StabilityModel.isTurbo : StabilityModel → Bool
  | .sd3LargeTurbo => true
  | .sd35LargeTurbo => true
  | _ => false

/-- The two length errors `generate_image` can raise before contacting the
API (`image_generator.py` lines 152-156); both are `ValueError`s raised
outside the `try` block, so they propagate to the caller unwrapped. -/
inductive PromptError where
  /-- `ValueError("Prompt must be 10000 characters or less")` -/
  | promptTooLong
  /-- `ValueError("Negative prompt must be 10000 characters or less")` -/
  | negativePromptTooLong
  deriving Repr, DecidableEq

/-- The prompt-validation prefix of `ImageGenerator.generate_image`
(`image_generator.py` lines 152-161): reject a prompt longer than 10000
characters, reject a non-empty negative prompt longer than 10000 characters,
then silently drop the negative prompt for turbo models.  On success it
returns the prompt and the effective negative prompt exactly as the request
form will carry them (lines 165-176): the prompt text itself is never
altered. -/
def generate_image_validate (prompt negative_prompt : String)
    (model : StabilityModel) : Except PromptError (String × String) :=
  if prompt.length > 10000 then .error .promptTooLong
  else if negative_prompt ≠ "" && negative_prompt.length > 10000 then
    .error .negativePromptTooLong
  else if negative_prompt ≠ "" && model.isTurbo then .ok (prompt, "")
  else .ok (prompt, negative_prompt)

/-! ## Retry wrapper: `with_retry` (`utils/retry.py` lines 9-41)

The decorator wraps an async operation: `for attempt in range(retries + 1)`,
each iteration awaits the operation; an exception matching the `exceptions`
tuple is recorded as `last_exception` and, unless this was the final attempt,
the loop sleeps and continues; the final failure re-raises `last_exception`
itself.  An exception not matching the tuple is not caught and propagates at
once.  The operation is modelled as a call-indexed outcome stream
`op : Nat → Except PyExc α`, the `isinstance` check against the tuple as a
predicate `retryable`, and the result carries the number of calls made. -/

/-- A Python exception object: its type name, message, and an identity tag so
that "re-raises the last exception unchanged (same instance)" is expressible
as equality of the whole value. -/
structure PyExc where
  typeName : String
  message : String
  objectId : Nat
  deriving Repr, DecidableEq

/-- The retry loop from attempt number `attempt` with `remaining` further
attempts allowed after this one (`remaining = retries - attempt`).  Returns
the overall outcome and the total number of calls made to the operation. -/
def with_retry_go {α : Type} (retryable : PyExc → Bool)
    (op : Nat → Except PyExc α) : (attempt remaining : Nat) → Except PyExc α × Nat
  | attempt, 0 =>
    (match op attempt with
     | .ok a => .ok a
     | .error e => .error e, attempt + 1)
  | attempt, remaining + 1 =>
    match op attempt with
    | .ok a => (.ok a, attempt + 1)
    | .error e =>
      if retryable e then with_retry_go retryable op (attempt + 1) remaining
      else (.error e, attempt + 1)

/-- `with_retry(retries, delay, backoff, exceptions)` applied to an operation
(the sleeping between attempts has no effect on the returned value and is not
modelled).  Note that on the final attempt a matching exception is re-raised
as the very value `last_exception` holds — no wrapping occurs. -/
def with_retry {α : Type} (retries : Nat) (retryable : PyExc → Bool)
    (op : Nat → Except PyExc α) : Except PyExc α × Nat :=
  with_retry_go retryable op 0 retries

/-! ## BFL generation driver: `BFLGenerator.generate_image`
(`bfl_generator.py` lines 41-105)

The driver POSTs the prompt once, maps submission status 402/429 to distinct
`RuntimeError` messages, calls `raise_for_status`, then polls `/get_result`
every 0.5s until the job status is `"Ready"` (download the `sample` URL and
write the file) or `"Failed"` (raise carrying the provider's `error` detail).
The whole body sits in `try/except Exception`, which re-raises every failure
as `RuntimeError(f"Failed to generate image: {e}")`.

HTTP traffic is modelled as data: the submission responses as a call-indexed
stream (the code performs exactly one submission — the stream makes "no retry
happens" an observable count), the poll responses as a poll-indexed stream,
and the signed-URL download as a function from URL to response.  The
unbounded `while True` poll loop takes a fuel parameter; exhausting fuel is a
model artifact distinct from every outcome the code can produce. -/

/-- A submission response: HTTP status and the JSON `id` field. -/
structure SubmitResp where
  status : Nat
  id : String
  deriving Repr, DecidableEq

/-- A poll response: HTTP status and the JSON body's `status`, optional
`result.sample` URL and optional `error` detail. -/
structure PollResp where
  status : Nat
  jobStatus : String
  sample : Option String
  error : Option String
  deriving Repr, DecidableEq

/-- A download response for the signed sample URL. -/
structure DlResp where
  status : Nat
  content : List Nat
  deriving Repr, DecidableEq

/-- Outcome of `BFLGenerator.generate_image`: either the success dict
(`{"success": True, "engine": model, ...}`) together with the file written to
the output path, or the message of the raised `RuntimeError`, or the
model-artifact marker for poll-fuel exhaustion. -/
inductive BflOutcome where
  | ok (engine : String) (path : String) (content : List Nat)
  | error (msg : String)
  | outOfFuel
  deriving Repr, DecidableEq

/-- The message of the `httpx.HTTPStatusError` that `raise_for_status` throws
for a 4xx/5xx response, abstracted to carry the status code. -/
def httpStatusMsg (status : Nat) : String :=
  "HTTP status error " ++ toString status

/-- The `while True` poll loop (`bfl_generator.py` lines 72-102), polling
index `i`: `raise_for_status` on the poll response, return on `"Ready"`
(fetch `result["result"]["sample"]`, download it, `raise_for_status`, write
the file), raise on `"Failed"` with the provider's error detail (default
`'Unknown error'`), otherwise log and continue.  Raised errors carry the
message the outer `except` will wrap. -/
def bflPollLoop (polls : Nat → PollResp) (download : String → DlResp)
    (model outputPath : String) : (fuel i : Nat) → BflOutcome
  | 0, _ => .outOfFuel
  | fuel + 1, i =>
    let r := polls i
    if 400 ≤ r.status then .error (httpStatusMsg r.status)
    else if r.jobStatus = "Ready" then
      match r.sample with
      | none => .error "KeyError: sample"
      | some url =>
        let dl := download url
        if 400 ≤ dl.status then .error (httpStatusMsg dl.status)
        else .ok model outputPath dl.content
    else if r.jobStatus = "Failed" then
      .error ("BFL generation failed: " ++ (r.error.getD "Unknown error"))
    else bflPollLoop polls download model outputPath fuel (i + 1)

/-- Poll `j` is answered with a well-formed non-terminal response: the HTTP
request succeeds and the job status is neither `"Ready"` nor `"Failed"`, so
the loop logs and continues. -/
def pollPending (polls : Nat → PollResp) (j : Nat) : Prop :=
  (polls j).status < 400 ∧ (polls j).jobStatus ≠ "Ready" ∧ (polls j).jobStatus ≠ "Failed"

/-- `BFLGenerator.generate_image` (`bfl_generator.py` lines 41-105).  Returns
the outcome and the number of submission POSTs performed; the body performs
exactly one (`submits 0`) — no retry wrapper is applied to it anywhere in the
repository.  Every raised error is re-wrapped by the outer
`except Exception` into `"Failed to generate image: ..."`. -/
def bfl_generate_image (model outputPath : String)
    (submits : Nat → SubmitResp) (polls : Nat → PollResp)
    (download : String → DlResp) (fuel : Nat) : BflOutcome × Nat :=
  let resp := submits 0
  let out :=
    if resp.status = 402 then BflOutcome.error "Insufficient BFL credits"
    else if resp.status = 429 then BflOutcome.error "Too many active BFL tasks"
    else if 400 ≤ resp.status then BflOutcome.error (httpStatusMsg resp.status)
    else bflPollLoop polls download model outputPath fuel 0
  (match out with
   | .error msg => .error ("Failed to generate image: " ++ msg)
   | o => o, 1)

/-! ## Metadata query/filter engine (`main.py` lines 699-788)

YAML values loaded by the `list` command are modelled by `PyVal`; Python
floats are modelled as exact rationals (every numeric literal the modelled
code compares is exactly representable).  The character classes `\w` and `\s`
are modelled over their ASCII meaning — every string the development
evaluates is ASCII. -/

/-- A Python value as loaded from a metadata YAML file. -/
inductive PyVal where
  | vstr (s : String)
  | vint (n : Int)
  | vrat (q : ℚ)
  | vbool (b : Bool)
  | vnone
  | vdict (entries : List (String × PyVal))
  deriving Repr

/-- Python `data == 'Unknown'`: true exactly for the equal string (values of
other types compare unequal to a string). -/
def pyIsUnknownStr : PyVal → Bool
  | .vstr s => s == "Unknown"
  | _ => false

/-- Python `data is None`. -/
def pyIsNone : PyVal → Bool
  | .vnone => true
  | _ => false

/-- Python truthiness (`if not data`, `if width and height`). -/
def pyTruthy : PyVal → Bool
  | .vstr s => !s.isEmpty
  | .vint n => n != 0
  | .vrat q => q != 0
  | .vbool b => b
  | .vnone => false
  | .vdict es => !es.isEmpty

/-- `str()` of a Python float whose exact value is `q`; faithful for the
integral values which are the only float-valued fields the modelled filters
ever stringify. -/
def ratPyStr (q : ℚ) : String :=
  if q.den = 1 then toString q.num ++ ".0"
  else toString q.num ++ "/" ++ toString q.den

/-- `str()` applied to a loaded YAML value.  (`str` of a dict is the Python
repr, which no modelled claim evaluates.) -/
def pyStr : PyVal → String
  | .vstr s => s
  | .vint n => toString n
  | .vrat q => ratPyStr q
  | .vbool b => if b then "True" else "False"
  | .vnone => "None"
  | .vdict _ => "{...}"

/-- Dict lookup (`d[k]` / the hit case of `d.get(k)`); first match wins. -/
def pyDictGet : List (String × PyVal) → String → Option PyVal
  | [], _ => none
  | (k, v) :: rest, key => if k = key then some v else pyDictGet rest key

/-- `v.get(key, default)` on an arbitrary value: succeeds on a dict, raises
`AttributeError` (the `.error` case) on anything else. -/
def pyValGet (v : PyVal) (key : String) (default : PyVal) : Except Unit PyVal :=
  match v with
  | .vdict es => .ok ((pyDictGet es key).getD default)
  | _ => .error ()

/-- Python `\w` over ASCII: `[A-Za-z0-9_]`. -/
def isWordChar (c : Char) : Bool := c.isAlphanum || c = '_'

/-- The filter-operator character class `[><=!]`. -/
def isOpChar (c : Char) : Bool := c = '>' || c = '<' || c = '=' || c = '!'

/-- A quote character for `value.strip('"\'')`. -/
def isQuote (c : Char) : Bool := c = '"' || c = '\''

/-- ASCII lowercasing of one character (`str.lower()` is applied only to
ASCII data in everything the claims evaluate). -/
def charLower (c : Char) : Char :=
  if 'A' ≤ c && c ≤ 'Z' then Char.ofNat (c.toNat + 32) else c

/-- `str.lower()` over ASCII data. -/
def strLower (s : String) : String := String.mk (s.data.map charLower)

/-- `str.strip()`: drop whitespace from both ends. -/
def pyStrip (s : String) : String :=
  String.mk (((s.data.dropWhile Char.isWhitespace).reverse.dropWhile
    Char.isWhitespace).reverse)

/-- `value.strip('"\'')`: drop quote characters from both ends. -/
def stripQuotes (s : String) : String :=
  String.mk (((s.data.dropWhile isQuote).reverse.dropWhile isQuote).reverse)

/-- Does `pat` occur at the start of `cs`? -/
def leadsWith : List Char → List Char → Bool
  | [], _ => true
  | _ :: _, [] => false
  | a :: pat, b :: cs => a = b && leadsWith pat cs

/-- Python's substring test `needle in hay` (contiguous occurrence). -/
def hasSub (needle : List Char) : List Char → Bool
  | [] => leadsWith needle []
  | c :: rest => leadsWith needle (c :: rest) || hasSub needle rest

/-- Fold a digit run to a natural number. -/
def digitsToNat (ds : List Char) : Nat :=
  ds.foldl (fun acc c => acc * 10 + (c.toNat - '0'.toNat)) 0

/-- A parsed float value, exactly: `(if neg then -1 else 1) * mant / 10 ^
scale`.  Every decimal string the modelled code feeds to `float()` denotes
such a value, and every comparison and multiplication the code performs on
the results is exact at these values. -/
structure DecimalValue where
  neg : Bool
  mant : Nat
  scale : Nat
  deriving Repr, DecidableEq

/-- The numerator of a `DecimalValue` over the denominator `10 ^ scale`. -/
def DecimalValue.nmr (d : DecimalValue) : Int :=
  if d.neg then -(d.mant : Int) else (d.mant : Int)

/-- The denominator of a `DecimalValue`. -/
def DecimalValue.dnm (d : DecimalValue) : Int := (10 : Int) ^ d.scale

/-- Comparison of two parsed float values (cross-multiplied; denominators
are positive). -/
def decimalLt (a b : DecimalValue) : Bool := a.nmr * b.dnm < b.nmr * a.dnm

/-- Non-strict comparison of two parsed float values. -/
def decimalLe (a b : DecimalValue) : Bool := a.nmr * b.dnm ≤ b.nmr * a.dnm

/-- Python `float()` on a run matching `digits[.digits]` or `.digits` (no
sign).  Exponent notation and `inf`/`nan` are not modelled: no value this
development evaluates uses them, and like every other unparsable string they
yield `none` (`ValueError`). -/
def floatCore (cs : List Char) : Option DecimalValue :=
  let intPart := cs.takeWhile Char.isDigit
  let rest := cs.drop intPart.length
  match rest with
  | [] => if intPart.isEmpty then none else some ⟨false, digitsToNat intPart, 0⟩
  | '.' :: frac =>
    if frac.all Char.isDigit && !(intPart.isEmpty && frac.isEmpty) then
      some ⟨false, digitsToNat intPart * 10 ^ frac.length + digitsToNat frac, frac.length⟩
    else none
  | _ => none

/-- Python `float(str)`: strip whitespace, optional sign, then a decimal
number (see `floatCore` for the unmodelled exotic forms). -/
def pyFloatParse (s : String) : Option DecimalValue :=
  match (pyStrip s).data with
  | '+' :: r => floatCore r
  | '-' :: r => (floatCore r).map (fun d => { d with neg := true })
  | r => floatCore r

/-- Python `int(str)`: optional sign then a non-empty digit run (digit-group
underscores are not modelled; no evaluated string uses them). -/
def pyIntParse (s : String) : Option Int :=
  let core : List Char → Option Nat := fun ds =>
    if !ds.isEmpty && ds.all Char.isDigit then some (digitsToNat ds) else none
  match (pyStrip s).data with
  | '+' :: ds => (core ds).map Int.ofNat
  | '-' :: ds => (core ds).map (fun n => -(n : Int))
  | ds => (core ds).map Int.ofNat

/-- The binary multipliers of `parse_size` (`main.py` lines 702-708). -/
def sizeMultiplier (unit : String) : Nat :=
  if unit = "b" then 1
  else if unit = "kb" then 1024
  else if unit = "mb" then 1024 * 1024
  else if unit = "gb" then 1024 * 1024 * 1024
  else 1024 * 1024 * 1024 * 1024

/-- Is the post-number remainder a valid `([kmgt]?b)?$` tail? -/
def unitValid (u : String) : Bool :=
  u = "" || u = "b" || u = "kb" || u = "mb" || u = "gb" || u = "tb"

/-- `parse_size` (`main.py` lines 699-719): lowercase and strip, match
`^([\d.]+)\s*([kmgt]?b)?$` (the number run, optional whitespace, optional
unit defaulting to bytes) and return `int(float(number) * multiplier)`; if
the regex does not match, fall back to `int(size_str)`.  `none` models the
`ValueError` that escapes (from `float` on a malformed number run such as
`"1.2.3"`, or from the `int` fallback). -/
def parse_size (sizeStr : String) : Option Int :=
  let t := strLower (pyStrip sizeStr)
  let cs := t.data
  let numRun := cs.takeWhile (fun c => c.isDigit || c = '.')
  let unitPart := String.mk ((cs.drop numRun.length).dropWhile Char.isWhitespace)
  if !numRun.isEmpty && unitValid unitPart then
    let unit := if unitPart = "" then "b" else unitPart
    (floatCore numRun).map
      (fun d => (Int.ofNat (d.mant * sizeMultiplier unit / 10 ^ d.scale)))
  else
    pyIntParse t

/-- The result of matching the filter regex
`(\w+)(?:\.(\w+))?\s*([><=!]+|contains)\s*(.+)`:
field, optional subfield, operator token, raw value. -/
abbrev ParsedFilter := String × Option String × String × String

/-- The `\s*(.+)` tail after the operator: greedy whitespace, backtracking
just enough that the final group keeps at least one character. -/
def valueTail (after : List Char) : Option (List Char) :=
  if after.isEmpty then none
  else some (after.drop (min (after.takeWhile Char.isWhitespace).length (after.length - 1)))

/-- Match `\s*([><=!]+|contains)\s*(.+)` against the rest of the expression:
whitespace, then the greedy operator-character run (giving one character back
to the value group when the run would consume the whole remainder), with the
literal alternative `contains` tried when the character class fails. -/
def matchOpValue (rest : List Char) : Option (String × String) :=
  let r := rest.dropWhile Char.isWhitespace
  let m := (r.takeWhile isOpChar).length
  let charsetAttempt : Option (String × String) :=
    if m = 0 then none
    else
      match valueTail (r.drop m) with
      | some v => some (String.mk (r.take m), String.mk v)
      | none =>
        if 2 ≤ m then
          (valueTail (r.drop (m - 1))).map
            (fun v => (String.mk (r.take (m - 1)), String.mk v))
        else none
  match charsetAttempt with
  | some ov => some ov
  | none =>
    if leadsWith "contains".data r then
      (valueTail (r.drop 8)).map (fun v => ("contains", String.mk v))
    else none

/-- Backtracking over the greedy subfield run `(?:\.(\w+))?`: try the longest
`\w+` subfield first, shrinking until the rest of the pattern matches. -/
def subLoop (field : String) (r2 : List Char) : Nat → Option ParsedFilter
  | 0 => none
  | sl + 1 =>
    match matchOpValue (r2.drop (sl + 1)) with
    | some (op, v) => some (field, some (String.mk (r2.take (sl + 1))), op, v)
    | none => subLoop field r2 sl

/-- One candidate field length: the optional dotted subfield (present before
absent, as the regex engine orders it), then operator and value. -/
def fieldAttempt (cs : List Char) (fl : Nat) : Option ParsedFilter :=
  let field := String.mk (cs.take fl)
  let rest1 := cs.drop fl
  let withSub :=
    match rest1 with
    | '.' :: r2 => subLoop field r2 (r2.takeWhile isWordChar).length
    | _ => none
  match withSub with
  | some p => some p
  | none => (matchOpValue rest1).map (fun ov => (field, none, ov.1, ov.2))

/-- Backtracking over the greedy field run `(\w+)`, longest first. -/
def fieldLoop (cs : List Char) : Nat → Option ParsedFilter
  | 0 => none
  | fl + 1 =>
    match fieldAttempt cs (fl + 1) with
    | some p => some p
    | none => fieldLoop cs fl

/-- `re.match(r'(\w+)(?:\.(\w+))?\s*([><=!]+|contains)\s*(.+)', expr)`
(`main.py` line 737), `none` meaning no match
(→ `ValueError(f"Invalid filter expression: ...")`). -/
def parseFilter (expr : String) : Option ParsedFilter :=
  fieldLoop expr.data (expr.data.takeWhile isWordChar).length

/-- Outcome of the field-resolution block of `eval_filter`
(`main.py` lines 744-773): a resolved `(str(data), str(value))` pair, an
early `return False` (including the `except (KeyError, TypeError)` handler),
or an uncaught `AttributeError` from calling `.get` on a non-dict. -/
inductive ResolveOutcome where
  | resolved (dataStr valueStr : String)
  | excluded
  | attrError
  deriving Repr, DecidableEq

/-- The field-resolution block of `eval_filter` (`main.py` lines 744-773):
`size` reads `image_info.file_size_bytes` (default 0) and converts the
comparison value through `parse_size` (a `ValueError` there excludes the
record); `dimensions` reads `image_info.dimensions`, deriving
`"{width}x{height}"` when absent or `'Unknown'`; `prompt` reads
`original_prompt` (falsy excludes); any other field is a dict lookup
(`KeyError` excludes) with an optional `.get(subfield)` whose `None` result
excludes the record. -/
def resolveField (field : String) (sub : Option String) (value : String)
    (md : List (String × PyVal)) : ResolveOutcome :=
  if field = "size" then
    let info := (pyDictGet md "image_info").getD (.vdict [])
    match pyValGet info "file_size_bytes" (.vint 0) with
    | .error _ => .attrError
    | .ok data =>
      match parse_size value with
      | none => .excluded
      | some n => .resolved (pyStr data) (pyStr (.vint n))
  else if field = "dimensions" then
    let info := (pyDictGet md "image_info").getD (.vdict [])
    match pyValGet info "dimensions" (.vstr "") with
    | .error _ => .attrError
    | .ok data0 =>
      if !pyTruthy data0 || pyIsUnknownStr data0 then
        match pyValGet info "width" (.vint 0), pyValGet info "height" (.vint 0) with
        | .ok w, .ok h =>
          if pyTruthy w && pyTruthy h then
            .resolved (pyStr w ++ "x" ++ pyStr h) value
          else .excluded
        | _, _ => .attrError
      else .resolved (pyStr data0) value
  else if field = "prompt" then
    let data := (pyDictGet md "original_prompt").getD (.vstr "")
    if !pyTruthy data then .excluded else .resolved (pyStr data) value
  else
    match pyDictGet md field with
    | none => .excluded
    | some data =>
      match sub with
      | none => if pyIsNone data then .excluded else .resolved (pyStr data) value
      | some s =>
        match pyValGet data s .vnone with
        | .error _ => .attrError
        | .ok d2 => if pyIsNone d2 then .excluded else .resolved (pyStr d2) value

/-- Apply a comparison from the `ops` table (`main.py` lines 726-734) to the
two stringified sides; `none` models the `ValueError`/`TypeError` that the
surrounding `try` converts to `False` (a `float()` failure under an ordering
operator). -/
def applyOp (op x y : String) : Option Bool :=
  let ordApply : (DecimalValue → DecimalValue → Bool) → Option Bool := fun f =>
    match pyFloatParse x, pyFloatParse y with
    | some a, some b => some (f a b)
    | _, _ => none
  if op = ">" then ordApply (fun a b => decimalLt b a)
  else if op = "<" then ordApply decimalLt
  else if op = ">=" then ordApply (fun a b => decimalLe b a)
  else if op = "<=" then ordApply decimalLe
  else if op = "=" then some (strLower x == strLower y)
  else if op = "!=" then some (strLower x != strLower y)
  else some (hasSub (strLower y).data (strLower x).data)

/-- The keys of the `ops` dictionary (`main.py` lines 726-734). -/
def opsKeys : List String := [">", "<", ">=", "<=", "=", "!=", "contains"]

/-- How `eval_filter(expr, metadata)` can end: a boolean, the
`ValueError` for an expression the regex rejects, an uncaught `KeyError`
from `ops[op]` on an operator token outside the table, or an uncaught
`AttributeError` from field resolution. -/
inductive FilterOutcome where
  | ok (b : Bool)
  | invalidExpr
  | keyErrorOp (op : String)
  | attrError
  deriving Repr, DecidableEq

/-- `eval_filter` (`main.py` lines 721-778): parse the expression (failure
raises), strip quotes from the value, resolve the field (failures exclude
the record), then look the operator up in `ops` — a `KeyError` there is
uncaught — and apply it, converting `ValueError`/`TypeError` to `False`. -/
def eval_filter (expr : String) (md : List (String × PyVal)) : FilterOutcome :=
  match parseFilter expr with
  | none => .invalidExpr
  | some (field, sub, op, v0) =>
    let value := stripQuotes v0
    match resolveField field sub value md with
    | .excluded => .ok false
    | .attrError => .attrError
    | .resolved x y =>
      if op ∈ opsKeys then
        match applyOp op x y with
        | some b => .ok b
        | none => .ok false
      else .keyErrorOp op

/-! ## Metadata store: `MetadataHandler` (`metadata.py` lines 18-85) and
`compute_file_hash` (`utils/hash.py` lines 4-11)

The filesystem is modelled as an association list from path strings to
entries (image byte sequences or metadata records); writing shadows earlier
entries, lookup takes the first match.  `compute_file_hash` streams the file
in 4096-byte chunks into one SHA-256 context, which digests exactly the
file's full byte sequence; the digest itself is modelled symbolically as a
collision-free fingerprint of that sequence (the standard symbolic treatment
of a cryptographic hash — genuine SHA-256 collision-freedom is a
cryptographic assumption, not a provable fact, while everything the claims
say about the store concerns which bytes are digested and compared). -/

/-- A symbolic SHA-256 digest: the fingerprint of a byte sequence. -/
structure Digest where
  fingerprint : List Nat
  deriving Repr, DecidableEq

/-- `compute_file_hash` / `hashlib.sha256(data).hexdigest()` applied to a
file's bytes (see the section comment for the symbolic-digest model). -/
def sha256Hex (content : List Nat) : Digest := ⟨content⟩

/-- The record `save_metadata` writes (`metadata.py` lines 36-67), fields in
the YAML's nesting order: top-level `timestamp`, `original_prompt`,
`generated_prompt`; `image_parameters.{cfg_scale, format, width, height}`;
`image_verification.{size_bytes, checksum_sha256, verification_time}`;
`model_info.anthropic.model` (fixed) and
`model_info.generator.{model, platform}`; `status.{success, generation_time}`. -/
structure SavedMetadata where
  timestamp : String
  original_prompt : String
  generated_prompt : String
  cfg_scale : ℚ
  format : String
  width : Int
  height : Int
  size_bytes : Nat
  checksum_sha256 : Digest
  verification_time : String
  generator_model : String
  generator_platform : String
  success : Bool
  generation_time : ℚ
  deriving Repr, DecidableEq

/-- A file in the modelled output directory. -/
inductive FsEntry where
  | image (bytes : List Nat)
  | meta (rec : SavedMetadata)
  deriving Repr, DecidableEq

/-- The filesystem under the output directory. -/
abbrev Fs := List (String × FsEntry)

/-- First-match lookup. -/
def fsLookup : Fs → String → Option FsEntry
  | [], _ => none
  | (p, e) :: rest, path => if p = path then some e else fsLookup rest path

/-- The bytes of the image file at `path`, when one exists there. -/
def fsImage (fs : Fs) (path : String) : Option (List Nat) :=
  match fsLookup fs path with
  | some (.image b) => some b
  | _ => none

/-- Writing a file: the new entry shadows any earlier one at the path. -/
def fsWrite (fs : Fs) (path : String) (e : FsEntry) : Fs := (path, e) :: fs

/-- `Path.with_suffix(".yaml")`: replace the extension after the last dot
(append when there is none).  The corner cases of `pathlib` (leading-dot
components and the like) do not occur in the modelled paths. -/
def withSuffixYaml (p : String) : String :=
  let cs := p.data
  let stem := match cs.reverse.dropWhile (· ≠ '.') with
    | [] => cs
    | _ :: rest => rest.reverse
  String.mk stem ++ ".yaml"

/-- `Path.suffix[1:]`: the extension after the last dot, without the dot
(empty when there is no dot). -/
def suffixNoDot (p : String) : String :=
  if p.data.contains '.' then
    String.mk (p.data.reverse.takeWhile (· ≠ '.')).reverse
  else ""

/-- The parts of `prompt_data` that `save_metadata` reads:
`prompt_data["generation"]["prompt"]` and
`prompt_data["generation"]["parameters"].get("cfg_scale", 7.0)`. -/
structure PromptDataView where
  generated_prompt : String
  cfg_scale : Option ℚ
  deriving Repr, DecidableEq

/-- The parts of the `generation_result` dict that `save_metadata` reads:
`success`, `engine`, `generation_settings.get("width"/"height", 1024)` and
`get("generation_time", 0)`. -/
structure GenResultView where
  success : Bool
  engine : String
  width : Option Int
  height : Option Int
  generation_time : Option ℚ
  deriving Repr, DecidableEq

/-- `MetadataHandler.save_metadata` (`metadata.py` lines 22-72): stat the
image file for its size, hash its bytes, assemble the record (platform
chosen by whether `"flux"` occurs in the lowercased engine id), and write it
at the image path with the suffix replaced by `.yaml`.  `none` models the
`FileNotFoundError` when no image file exists at the path; `now` stands for
`datetime.now()`, used for both `timestamp` and `verification_time`. -/
def save_metadata (fs : Fs) (image_path : String) (prompt_data : PromptDataView)
    (generation_result : GenResultView) (original_prompt : String)
    (now : String) : Option (Fs × SavedMetadata) :=
  match fsImage fs image_path with
  | none => none
  | some bytes =>
    let m : SavedMetadata := {
      timestamp := now
      original_prompt := original_prompt
      generated_prompt := prompt_data.generated_prompt
      cfg_scale := prompt_data.cfg_scale.getD 7
      format := suffixNoDot image_path
      width := generation_result.width.getD 1024
      height := generation_result.height.getD 1024
      size_bytes := bytes.length
      checksum_sha256 := sha256Hex bytes
      verification_time := now
      generator_model := generation_result.engine
      generator_platform :=
        if hasSub "flux".data (strLower generation_result.engine).data then
          "Black Forest Labs"
        else "Stability AI"
      success := generation_result.success
      generation_time := generation_result.generation_time.getD 0 }
    some (fsWrite fs (withSuffixYaml image_path) (.meta m), m)

/-- `MetadataHandler.load_metadata` (`metadata.py` lines 74-78): read the
YAML file and parse it into `ImageMetadata`; `none` models the missing-file
and failed-parse errors. -/
def load_metadata (fs : Fs) (path : String) : Option SavedMetadata :=
  match fsLookup fs path with
  | some (.meta m) => some m
  | _ => none

/-- `MetadataHandler.verify_image` (`metadata.py` lines 80-85): re-read the
image file, recompute its SHA-256 and compare it with the record's
`image_verification["checksum_sha256"]`; `none` models the missing-file
error. -/
def verify_image (fs : Fs) (image_path : String) (m : SavedMetadata) :
    Option Bool :=
  match fsImage fs image_path with
  | none => none
  | some bytes => some (sha256Hex bytes == m.checksum_sha256)

/-- The digest as the hex string stored in the YAML (its exact text is never
inspected by a modelled claim). -/
def digestStr (d : Digest) : String := "sha256:" ++ toString d.fingerprint

/-- The YAML document `save_metadata` writes, as the dict the `list` command
loads back and hands to `eval_filter` (`metadata.py` lines 36-67 /
`main.py` lines 519-535). -/
def savedMetadataToPyVal (m : SavedMetadata) : List (String × PyVal) :=
  [("timestamp", .vstr m.timestamp),
   ("original_prompt", .vstr m.original_prompt),
   ("generated_prompt", .vstr m.generated_prompt),
   ("image_parameters", .vdict
     [("cfg_scale", .vrat m.cfg_scale),
      ("format", .vstr m.format),
      ("width", .vint m.width),
      ("height", .vint m.height)]),
   ("image_verification", .vdict
     [("size_bytes", .vint m.size_bytes),
      ("checksum_sha256", .vstr (digestStr m.checksum_sha256)),
      ("verification_time", .vstr m.verification_time)]),
   ("model_info", .vdict
     [("anthropic", .vdict
       [("model", .vstr "claude-3-sonnet"),
        ("version", .vstr "1.0")]),
      ("generator", .vdict
       [("model", .vstr m.generator_model),
        ("platform", .vstr m.generator_platform),
        ("version", .vstr "1.0")])]),
   ("status", .vdict
     [("success", .vbool m.success),
      ("generation_time", .vrat m.generation_time)])]

/-! ## Helper lemmas -/

/-- The clamp stage lands in `[512, 1024]`. -/
theorem clampDim_bounds (dim : DimLabel) (v : Int) :
    512 ≤ (clampDim dim v).1 ∧ (clampDim dim v).1 ≤ 1024 := by
  unfold clampDim
  split_ifs <;> (simp; try omega)

/-- On a value already in `[512, 1024]`, the rounding stage stays in
`[512, 1024]` and produces a multiple of 64. -/
theorem roundDim64_spec (dim : DimLabel) (v : Int) (h1 : 512 ≤ v) (h2 : v ≤ 1024) :
    512 ≤ (roundDim64 dim v).1 ∧ (roundDim64 dim v).1 ≤ 1024 ∧
      (roundDim64 dim v).1 % 64 = 0 := by
  unfold roundDim64
  split_ifs with h
  · exact ⟨by simp; omega, by simp; omega, by simp⟩
  · simp at h ⊢
    omega

/-- The rounding stage never records a total-pixel fallback adjustment. -/
theorem roundDim64_noPixel (dim : DimLabel) (v : Int) :
    ((roundDim64 dim v).2.all fun a => !a.isPixelFallback) = true := by
  unfold roundDim64
  split_ifs <;> simp [Adjustment.isPixelFallback]

/-- Dimensions in `[512, 1024]` multiply to a pixel count in
`[262144, 1048576]`. -/
theorem pixel_bounds {w h : Int} (hw1 : 512 ≤ w) (hw2 : w ≤ 1024)
    (hh1 : 512 ≤ h) (hh2 : h ≤ 1024) :
    262144 ≤ w * h ∧ w * h ≤ 1048576 := by
  constructor
  · calc (262144 : Int) = 512 * 512 := by norm_num
    _ ≤ w * h := mul_le_mul hw1 hh1 (by norm_num) (by omega)
  · calc w * h ≤ 1024 * 1024 := mul_le_mul hw2 hh2 (by omega) (by norm_num)
    _ = 1048576 := by norm_num

/-! ## Claim theorems -/

/-- C5: for every input on which `validate_and_clamp` completes, the
resulting `width` and `height` are multiples of 64, each within
`[512, 1024]`, and their product lies within `[262144, 1048576]`.  (The pure
clamping body completes on every input, so the statement is unconditional.) -/
theorem c5_validate_and_clamp_dims_invariant (p : RawParams) :
    (validate_and_clamp p).1.width % 64 = 0 ∧
    512 ≤ (validate_and_clamp p).1.width ∧ (validate_and_clamp p).1.width ≤ 1024 ∧
    (validate_and_clamp p).1.height % 64 = 0 ∧
    512 ≤ (validate_and_clamp p).1.height ∧ (validate_and_clamp p).1.height ≤ 1024 ∧
    262144 ≤ (validate_and_clamp p).1.width * (validate_and_clamp p).1.height ∧
    (validate_and_clamp p).1.width * (validate_and_clamp p).1.height ≤ 1048576 := by
  obtain ⟨hcw1, hcw2⟩ := clampDim_bounds .width p.width
  obtain ⟨hch1, hch2⟩ := clampDim_bounds .height p.height
  obtain ⟨hrw1, hrw2, hrw3⟩ := roundDim64_spec .width _ hcw1 hcw2
  obtain ⟨hrh1, hrh2, hrh3⟩ := roundDim64_spec .height _ hch1 hch2
  obtain ⟨hp1, hp2⟩ := pixel_bounds hrw1 hrw2 hrh1 hrh2
  simp only [validate_and_clamp]
  rw [if_neg (by omega), if_neg (by omega)]
  exact ⟨hrw3, hrw1, hrw2, hrh3, hrh1, hrh2, hp1, hp2⟩

/-- C9: for every `ImageParameters` construction that passes the pydantic
field constraints, the total-pixel fallback branches of `validate_and_clamp`
are unreachable — no pixel-fallback adjustment is ever recorded — because
after the multiple-of-64 rounding the pixel product already lies in
`[262144, 1048576]`. -/
theorem c9_pixel_fallback_unreachable (p : RawParams) (h : fieldValid p = true) :
    ((validate_and_clamp p).2.all fun a => !a.isPixelFallback) = true ∧
    262144 ≤ (validate_and_clamp p).1.width * (validate_and_clamp p).1.height ∧
    (validate_and_clamp p).1.width * (validate_and_clamp p).1.height ≤ 1048576 := by
  simp only [fieldValid, Bool.and_eq_true, decide_eq_true_eq] at h
  obtain ⟨⟨⟨⟨⟨hw1, hw2⟩, hh1, hh2⟩, hs1, hs2⟩, hc1, hc2⟩, _⟩ := h
  have hcw : clampDim .width p.width = (p.width, []) := by
    unfold clampDim
    rw [if_neg (by omega), if_neg (by omega)]
  have hch : clampDim .height p.height = (p.height, []) := by
    unfold clampDim
    rw [if_neg (by omega), if_neg (by omega)]
  have hcc : clampCfg p.cfg_scale = (p.cfg_scale, []) := by
    unfold clampCfg
    rw [if_neg (by linarith), if_neg (by linarith)]
  have hcs : clampSteps p.steps = (p.steps, []) := by
    unfold clampSteps
    rw [if_neg (by omega), if_neg (by omega)]
  obtain ⟨hrw1, hrw2, _⟩ := roundDim64_spec .width p.width hw1 hw2
  obtain ⟨hrh1, hrh2, _⟩ := roundDim64_spec .height p.height hh1 hh2
  obtain ⟨hp1, hp2⟩ := pixel_bounds hrw1 hrw2 hrh1 hrh2
  simp only [validate_and_clamp, hcw, hch, hcc, hcs]
  rw [if_neg (by omega), if_neg (by omega)]
  refine ⟨?_, hp1, hp2⟩
  simp only [List.nil_append, List.append_nil, List.all_append, Bool.and_eq_true]
  exact ⟨roundDim64_noPixel .width p.width, roundDim64_noPixel .height p.height⟩

/-- C9 witness: a field-valid parameter set (width 513 exercises the rounding
stage) satisfies the hypothesis and the conclusion. -/
theorem c9_pixel_witness :
    fieldValid ⟨513, 1024, 30, 7, none⟩ = true ∧
    (((validate_and_clamp ⟨513, 1024, 30, 7, none⟩).2.all
        fun a => !a.isPixelFallback) = true ∧
      262144 ≤ (validate_and_clamp ⟨513, 1024, 30, 7, none⟩).1.width *
        (validate_and_clamp ⟨513, 1024, 30, 7, none⟩).1.height ∧
      (validate_and_clamp ⟨513, 1024, 30, 7, none⟩).1.width *
        (validate_and_clamp ⟨513, 1024, 30, 7, none⟩).1.height ≤ 1048576) :=
  ⟨by decide, c9_pixel_fallback_unreachable ⟨513, 1024, 30, 7, none⟩ (by decide)⟩

/-- C1 counterexample: the claim says an out-of-range numeric value of the
correct type is repaired in place without raising; but constructing
`ImageParameters(width=2048)` raises a pydantic `ValidationError` from the
`le=1024` field constraint before `validate_and_clamp` can run. -/
theorem c1_claim_counterexample :
    mkImageParameters ⟨2048, 1024, 30, 7, none⟩ = .error .fieldConstraint := by
  rfl

/-- C1 (amended): constructing `ImageParameters` with any numeric parameter
outside its documented range raises a `ValidationError` (the pydantic field
`ge`/`le` constraints reject it before the clamping validator runs); no
in-place repair happens for out-of-range values. -/
theorem c1_amended_out_of_range_raises (p : RawParams)
    (h : fieldValid p = false) :
    mkImageParameters p = .error .fieldConstraint := by
  simp [mkImageParameters, h]

/-- C1 witness: `width=256` (too small, correct type) violates the field
constraints and construction fails with the field-constraint error. -/
theorem c1_amended_witness :
    fieldValid ⟨256, 1024, 30, 7, none⟩ = false ∧
    mkImageParameters ⟨256, 1024, 30, 7, none⟩ = .error .fieldConstraint :=
  ⟨by decide, c1_amended_out_of_range_raises ⟨256, 1024, 30, 7, none⟩ (by decide)⟩

/-- Helper for C3: when every call fails with a matching exception, the loop
runs through all its attempts and ends with the final call's exception. -/
theorem with_retry_go_all_fail {α : Type} (retryable : PyExc → Bool)
    (op : Nat → Except PyExc α) (e : Nat → PyExc)
    (hop : ∀ n, op n = .error (e n)) (hr : ∀ n, retryable (e n) = true) :
    ∀ remaining attempt, with_retry_go retryable op attempt remaining =
      (.error (e (attempt + remaining)), attempt + remaining + 1) := by
  intro remaining
  induction remaining with
  | zero =>
    intro attempt
    simp [with_retry_go, hop attempt]
  | succ n ih =>
    intro attempt
    simp only [with_retry_go, hop attempt, hr attempt, if_true]
    rw [ih (attempt + 1)]
    ring_nf

/-- C3: an operation that always raises a retryable exception is invoked
exactly 4 times under `with_retry` with `retries=3` (1 initial attempt + 3
retries), and the wrapper then re-raises the 4th call's exception object
itself — the same value, no wrapper type. -/
theorem c3_retry_four_attempts_reraises_last {α : Type}
    (retryable : PyExc → Bool) (op : Nat → Except PyExc α) (e : Nat → PyExc)
    (hop : ∀ n, op n = .error (e n)) (hr : ∀ n, retryable (e n) = true) :
    with_retry 3 retryable op = (.error (e 3), 4) := by
  unfold with_retry
  rw [with_retry_go_all_fail retryable op e hop hr 3 0]

/-- C3 witness: a concrete operation raising `RuntimeError("API Error")`
(identity tag = call index) on every call, with every exception retryable. -/
theorem c3_retry_witness :
    with_retry 3 (fun _ => true)
      (fun n => (.error ⟨"RuntimeError", "API Error", n⟩ : Except PyExc Unit)) =
      (.error ⟨"RuntimeError", "API Error", 3⟩, 4) :=
  c3_retry_four_attempts_reraises_last (fun _ => true) _
    (fun n => ⟨"RuntimeError", "API Error", n⟩) (fun _ => rfl) (fun _ => rfl)

/-- C7: a prompt longer than 10000 characters (or a negative prompt longer
than 10000 characters) makes `generate_image` raise its fatal length
`ValueError`; prompts within the cap raise no length error, and the
successful path carries the prompt text unchanged — never clamped or
truncated (the negative prompt is altered only by the separate turbo-model
drop). -/
theorem c7_prompt_length_validation (prompt negative_prompt : String)
    (model : StabilityModel) :
    (10000 < prompt.length →
      generate_image_validate prompt negative_prompt model = .error .promptTooLong) ∧
    (prompt.length ≤ 10000 → 10000 < negative_prompt.length →
      generate_image_validate prompt negative_prompt model =
        .error .negativePromptTooLong) ∧
    (prompt.length ≤ 10000 → negative_prompt.length ≤ 10000 →
      generate_image_validate prompt negative_prompt model =
        .ok (prompt, if negative_prompt ≠ "" ∧ model.isTurbo then "" else negative_prompt)) := by
  refine ⟨?_, ?_, ?_⟩
  · intro h
    unfold generate_image_validate
    rw [if_pos (by omega)]
  · intro h1 h2
    have hne : negative_prompt ≠ "" := by
      intro he
      rw [he] at h2
      simp [String.length] at h2
    unfold generate_image_validate
    rw [if_neg (by omega), if_pos (by simp [hne]; omega)]
  · intro h1 h2
    unfold generate_image_validate
    rw [if_neg (by omega), if_neg (by simp; intro _; omega)]
    by_cases hne : negative_prompt = ""
    · subst hne
      simp
    · by_cases ht : model.isTurbo
      · rw [if_pos (by simp [hne, ht]), if_pos ⟨hne, ht⟩]
      · rw [if_neg (by simp [ht]), if_neg (by simp [ht])]

/-- C7 witness: a 10001-character prompt is rejected with the prompt-length
error, and a 10000-character prompt with a turbo model passes the length
checks (its text unchanged). -/
theorem c7_prompt_length_witness :
    (10000 < (String.mk (List.replicate 10001 'a')).length ∧
      generate_image_validate (String.mk (List.replicate 10001 'a')) ""
        .sd35Large = .error .promptTooLong) ∧
    ((String.mk (List.replicate 10000 'a')).length ≤ 10000 ∧
      generate_image_validate (String.mk (List.replicate 10000 'a')) "bad hands"
        .sd35LargeTurbo = .ok (String.mk (List.replicate 10000 'a'), "")) := by
  have hlen1 : (String.mk (List.replicate 10001 'a')).length = 10001 := by
    show (List.replicate 10001 'a').length = 10001
    exact List.length_replicate 10001 'a'
  have hlen2 : (String.mk (List.replicate 10000 'a')).length = 10000 := by
    show (List.replicate 10000 'a').length = 10000
    exact List.length_replicate 10000 'a'
  refine ⟨⟨by omega, ?_⟩, by omega, ?_⟩
  · exact (c7_prompt_length_validation _ "" .sd35Large).1 (by omega)
  · rw [(c7_prompt_length_validation _ "bad hands" .sd35LargeTurbo).2.2
      (by omega) (by simp [String.length])]
    rw [if_pos (by simp [StabilityModel.isTurbo])]

/-- C2 (code bug): `eval_filter "size>5MB"` never selects any record that
`save_metadata` persists — the filter resolves `size` through
`image_info.file_size_bytes`, a key absent from the saved schema (which
stores the size under `image_verification.size_bytes`), so the field
defaults to 0 and `0 > 5242880` is false for every record, whatever its
actual stored size; the claim's corpus with sizes
[1000000, 6000000, 10000000] therefore selects nothing instead of the last
two. -/
theorem c2_size_filter_selects_none_on_persisted_records
    (m : SavedMetadata) :
    eval_filter "size>5MB" (savedMetadataToPyVal m) = .ok false := by
  rfl

/-- C4 counterexample: the claim says a 429 submission is retried with
backoff by the retry executor; but `BFLGenerator.generate_image` is wrapped
by no retry executor — on a 429 first response it performs exactly one
submission (a second response that would succeed is never requested) and
raises at once. -/
theorem c4_claim_counterexample :
    bfl_generate_image "flux-pro-1.1" "output/image_001.png"
      (fun n => if n = 0 then ⟨429, "job-1"⟩ else ⟨200, "job-2"⟩)
      (fun _ => ⟨200, "Ready", some "https://signed/sample", none⟩)
      (fun _ => ⟨200, [137, 80, 78, 71]⟩) 10 =
      (.error "Failed to generate image: Too many active BFL tasks", 1) := by
  rfl

/-- C4 (amended): a BFL submission answered 402 or 429 is mapped to a
distinct human-readable failure reason (insufficient credits for 402, too
many active tasks for 429), and both fail fast after exactly one submission
attempt — no retry executor wraps the submission, so neither status is
retried. -/
theorem c4_amended_status_mapping_fail_fast (model path : String)
    (submits : Nat → SubmitResp) (polls : Nat → PollResp)
    (download : String → DlResp) (fuel : Nat) :
    ((submits 0).status = 402 →
      bfl_generate_image model path submits polls download fuel =
        (.error "Failed to generate image: Insufficient BFL credits", 1)) ∧
    ((submits 0).status = 429 →
      bfl_generate_image model path submits polls download fuel =
        (.error "Failed to generate image: Too many active BFL tasks", 1)) := by
  constructor
  · intro h
    simp only [bfl_generate_image, h]
    rfl
  · intro h
    simp only [bfl_generate_image, h]
    rfl

/-- C4 witness: concrete 402 and 429 submissions, mapped to their distinct
messages after one attempt each. -/
theorem c4_amended_witness :
    bfl_generate_image "flux-pro-1.1" "out.png" (fun _ => ⟨402, "j"⟩)
      (fun _ => ⟨200, "Ready", some "u", none⟩) (fun _ => ⟨200, []⟩) 10 =
      (.error "Failed to generate image: Insufficient BFL credits", 1) ∧
    bfl_generate_image "flux-pro-1.1" "out.png" (fun _ => ⟨429, "j"⟩)
      (fun _ => ⟨200, "Ready", some "u", none⟩) (fun _ => ⟨200, []⟩) 10 =
      (.error "Failed to generate image: Too many active BFL tasks", 1) :=
  ⟨(c4_amended_status_mapping_fail_fast "flux-pro-1.1" "out.png" _ _ _ 10).1 rfl,
   (c4_amended_status_mapping_fail_fast "flux-pro-1.1" "out.png" _ _ _ 10).2 rfl⟩

/-- Helper for C8: while every poll up to `k` is answered with a well-formed
non-terminal status, the loop just advances. -/
theorem bflPollLoop_skip (polls : Nat → PollResp) (download : String → DlResp)
    (model path : String) :
    ∀ (k fuel i : Nat), (∀ j, j < k → pollPending polls (i + j)) → k ≤ fuel →
      bflPollLoop polls download model path fuel i =
        bflPollLoop polls download model path (fuel - k) (i + k) := by
  intro k
  induction k with
  | zero => intro fuel i _ _; simp
  | succ n ih =>
    intro fuel i hpend hle
    obtain ⟨f, rfl⟩ : ∃ f, fuel = f + 1 := ⟨fuel - 1, by omega⟩
    obtain ⟨h1, h2, h3⟩ := hpend 0 (by omega)
    simp only [Nat.add_zero] at h1 h2 h3
    show (let r := polls i; _) = _
    simp only [bflPollLoop]
    rw [if_neg (by omega), if_neg h2, if_neg h3]
    have := ih f (i + 1) (fun j hj => by
      have := hpend (j + 1) (by omega)
      rwa [show i + (j + 1) = i + 1 + j by omega] at this) (by omega)
    rw [this]
    congr 1 <;> omega

/-- C8: the poll loop ends only on a terminal status.  With the submission
accepted, if the first `k` polls are non-terminal then: a `Ready` poll at
`k` carrying a sample URL makes the driver download that URL and return the
success result with the downloaded bytes written to the output path; a
`Failed` poll at `k` makes it raise an error carrying the provider's error
detail (e.g. `"NSFW"`); and if no poll up to the whole fuel budget is
terminal, the loop produces no result at all (the fuel marker is a model
artifact for the unbounded `while True`). -/
theorem c8_poll_loop_terminal_behaviour (model path : String)
    (submits : Nat → SubmitResp) (polls : Nat → PollResp)
    (download : String → DlResp) (fuel : Nat)
    (hsub : (submits 0).status < 400) :
    (∀ k, k < fuel → (∀ j, j < k → pollPending polls j) →
      (polls k).status < 400 → (polls k).jobStatus = "Ready" →
      ∀ url, (polls k).sample = some url → (download url).status < 400 →
        bfl_generate_image model path submits polls download fuel =
          (.ok model path (download url).content, 1)) ∧
    (∀ k, k < fuel → (∀ j, j < k → pollPending polls j) →
      (polls k).status < 400 → (polls k).jobStatus = "Failed" →
      ∀ detail, (polls k).error = some detail →
        bfl_generate_image model path submits polls download fuel =
          (.error ("Failed to generate image: BFL generation failed: " ++ detail), 1)) ∧
    ((∀ j, j < fuel → pollPending polls j) →
      bfl_generate_image model path submits polls download fuel = (.outOfFuel, 1)) := by
  have hstart : ∀ k, k ≤ fuel → (∀ j, j < k → pollPending polls j) →
      bflPollLoop polls download model path fuel 0 =
        bflPollLoop polls download model path (fuel - k) k := by
    intro k hk hpend
    have := bflPollLoop_skip polls download model path k fuel 0
      (fun j hj => by simpa using hpend j hj) hk
    simpa using this
  have hne1 : ¬((submits 0).status = 402) := by omega
  have hne2 : ¬((submits 0).status = 429) := by omega
  have hne3 : ¬(400 ≤ (submits 0).status) := by omega
  refine ⟨?_, ?_, ?_⟩
  · intro k hk hpend hst hready url hurl hdl
    have hloop : bflPollLoop polls download model path fuel 0 =
        .ok model path (download url).content := by
      rw [hstart k (by omega) hpend]
      obtain ⟨f, hf⟩ : ∃ f, fuel - k = f + 1 := ⟨fuel - k - 1, by omega⟩
      rw [hf]
      have hnst : ¬(400 ≤ (polls k).status) := by omega
      have hndl : ¬(400 ≤ (download url).status) := by omega
      simp [bflPollLoop, hnst, hready, hurl, hndl]
    simp [bfl_generate_image, hne1, hne2, hne3, hloop]
  · intro k hk hpend hst hfailed detail hdetail
    have hloop : bflPollLoop polls download model path fuel 0 =
        .error ("BFL generation failed: " ++ detail) := by
      rw [hstart k (by omega) hpend]
      obtain ⟨f, hf⟩ : ∃ f, fuel - k = f + 1 := ⟨fuel - k - 1, by omega⟩
      rw [hf]
      have hnst : ¬(400 ≤ (polls k).status) := by omega
      simp [bflPollLoop, hnst, hfailed, hdetail]
    simp only [bfl_generate_image, hne1, hne2, hne3, hloop, if_false, reduceIte]
    rw [← String.append_assoc]
    rfl
  · intro hpend
    have hloop : bflPollLoop polls download model path fuel 0 = .outOfFuel := by
      rw [hstart fuel le_rfl hpend]
      simp [bflPollLoop]
    simp [bfl_generate_image, hne1, hne2, hne3, hloop]

/-- C8 witness: a job that is pending twice and `Ready` on the third poll
(downloading the sample and returning success), and a job `Failed` with
error `"NSFW"` on the first poll (raising with the detail). -/
theorem c8_poll_witness :
    bfl_generate_image "flux-pro-1.1" "out/img.png" (fun _ => ⟨200, "j"⟩)
      (fun n => if n < 2 then ⟨200, "Pending", none, none⟩
                else ⟨200, "Ready", some "https://s/u", none⟩)
      (fun _ => ⟨200, [9, 9, 9]⟩) 10 =
      (.ok "flux-pro-1.1" "out/img.png" [9, 9, 9], 1) ∧
    bfl_generate_image "flux-pro-1.1" "out/img.png" (fun _ => ⟨200, "j"⟩)
      (fun _ => ⟨200, "Failed", none, some "NSFW"⟩)
      (fun _ => ⟨200, []⟩) 10 =
      (.error "Failed to generate image: BFL generation failed: NSFW", 1) := by
  constructor
  · exact (c8_poll_loop_terminal_behaviour _ _ _ _ _ 10 (by decide)).1 2 (by omega)
      (fun j hj => by
        interval_cases j <;> exact ⟨by decide, by decide, by decide⟩)
      (by decide) (by decide) "https://s/u" (by decide) (by decide)
  · exact (c8_poll_loop_terminal_behaviour _ _ _ _ _ 10 (by decide)).2.1 0 (by omega)
      (fun j hj => absurd hj (by omega)) (by decide) (by decide) "NSFW" (by decide)

/-- Helper for C6: a write at a different path does not change which image
bytes a path holds. -/
theorem fsImage_fsWrite_ne (fs : Fs) (p q : String) (e : FsEntry)
    (h : q ≠ p) : fsImage (fsWrite fs q e) p = fsImage fs p := by
  simp [fsImage, fsWrite, fsLookup, h]

/-- Helper for C6: replacing one list element by a different value changes
the list. -/
theorem set_ne_of_elem_ne {l : List Nat} {i : Nat} (hi : i < l.length)
    {b : Nat} (hb : b ≠ l.get ⟨i, hi⟩) : l.set i b ≠ l := by
  intro he
  apply hb
  have h1 : (l.set i b).getD i 0 = b := by
    rw [List.getD_eq_getElem _ _ (by simpa using hi)]
    exact List.getElem_set_self (by simpa using hi)
  rw [he, List.getD_eq_getElem _ _ hi] at h1
  exact h1.symm

/-- C6: for an image file saved with its metadata record, loading the record
back and verifying the untouched image succeeds; overwriting the image with
a copy that differs in one byte makes verification fail — the checksum is
recomputed from the file on disk and compared against the stored digest.
(The hypothesis `withSuffixYaml path ≠ path` says the record file does not
overwrite the image itself, which holds for every real image path such as
`x.png`.) -/
theorem c6_save_load_verify_roundtrip (fs : Fs) (path : String)
    (bytes : List Nat) (prompt_data : PromptDataView)
    (generation_result : GenResultView) (original_prompt now : String)
    (fs' : Fs) (m : SavedMetadata)
    (himg : fsImage fs path = some bytes)
    (hdist : withSuffixYaml path ≠ path)
    (hsave : save_metadata fs path prompt_data generation_result
      original_prompt now = some (fs', m)) :
    (load_metadata fs' (withSuffixYaml path) = some m ∧
      verify_image fs' path m = some true) ∧
    (∀ (i : Nat) (hi : i < bytes.length) (b : Nat), b ≠ bytes.get ⟨i, hi⟩ →
      verify_image (fsWrite fs' path (.image (bytes.set i b))) path m =
        some false) := by
  unfold save_metadata at hsave
  rw [himg] at hsave
  injection hsave with hpair
  injection hpair with hfs hm
  subst hfs
  subst hm
  refine ⟨⟨?_, ?_⟩, ?_⟩
  · simp [load_metadata, fsWrite, fsLookup]
  · rw [verify_image, fsImage_fsWrite_ne _ _ _ _ hdist, himg]
    simp
  · intro i hi b hb
    rw [verify_image]
    simp [fsImage, fsWrite, fsLookup, sha256Hex, Digest.mk.injEq]
    exact set_ne_of_elem_ne hi hb

/-- C6 witness: a three-byte image saved and verified, then corrupted in its
first byte and rejected. -/
theorem c6_roundtrip_witness :
    (load_metadata
        ((save_metadata [("img.png", .image [1, 2, 3])] "img.png"
          ⟨"gp", none⟩ ⟨true, "sd3.5-large", none, none, none⟩ "orig" "t").get
          (by decide)).1 "img.yaml" =
      some ((save_metadata [("img.png", .image [1, 2, 3])] "img.png"
          ⟨"gp", none⟩ ⟨true, "sd3.5-large", none, none, none⟩ "orig" "t").get
          (by decide)).2 ∧
      verify_image
        ((save_metadata [("img.png", .image [1, 2, 3])] "img.png"
          ⟨"gp", none⟩ ⟨true, "sd3.5-large", none, none, none⟩ "orig" "t").get
          (by decide)).1 "img.png"
        ((save_metadata [("img.png", .image [1, 2, 3])] "img.png"
          ⟨"gp", none⟩ ⟨true, "sd3.5-large", none, none, none⟩ "orig" "t").get
          (by decide)).2 = some true) ∧
    verify_image
      (fsWrite
        ((save_metadata [("img.png", .image [1, 2, 3])] "img.png"
          ⟨"gp", none⟩ ⟨true, "sd3.5-large", none, none, none⟩ "orig" "t").get
          (by decide)).1 "img.png" (.image ([1, 2, 3].set 0 9))) "img.png"
      ((save_metadata [("img.png", .image [1, 2, 3])] "img.png"
        ⟨"gp", none⟩ ⟨true, "sd3.5-large", none, none, none⟩ "orig" "t").get
        (by decide)).2 = some false := by
  have h := c6_save_load_verify_roundtrip [("img.png", .image [1, 2, 3])]
    "img.png" [1, 2, 3] ⟨"gp", none⟩ ⟨true, "sd3.5-large", none, none, none⟩
    "orig" "t" _ _ rfl (by decide) rfl
  exact ⟨⟨h.1.1, h.1.2⟩, h.2 0 (by decide) 9 (by decide)⟩

/-- C10 counterexample: the claim says every expression whose operator token
is drawn from `><=!` but is not one of the seven supported operators raises
an uncaught `KeyError`; but on a record without the requested field,
`eval_filter "foo == 5"` returns `False` — the field-resolution block runs
first and its `KeyError` handler excludes the record before `ops[op]` is
ever looked up. -/
theorem c10_claim_counterexample : eval_filter "foo == 5" [] = .ok false := by
  rfl

/-- C10 (amended): a malformed expression raises the distinct
invalid-expression `ValueError`; an expression whose operator token is not
in the `ops` table raises an uncaught `KeyError` — but only when field
resolution succeeds for the record (resolution failure excludes the record
first, returning `False` even under an unsupported operator); and under a
supported operator, every resolution failure and every value-coercion
failure (a `float()` error under an ordering comparison) returns `False`
instead of raising. -/
theorem c10_amended_filter_error_behaviour (expr : String)
    (md : List (String × PyVal)) :
    (parseFilter expr = none → eval_filter expr md = .invalidExpr) ∧
    (∀ field sub op v, parseFilter expr = some (field, sub, op, v) →
      (op ∉ opsKeys →
        (∀ x y, resolveField field sub (stripQuotes v) md = .resolved x y →
          eval_filter expr md = .keyErrorOp op) ∧
        (resolveField field sub (stripQuotes v) md = .excluded →
          eval_filter expr md = .ok false)) ∧
      (resolveField field sub (stripQuotes v) md = .excluded →
        eval_filter expr md = .ok false) ∧
      (op ∈ opsKeys →
        ∀ x y, resolveField field sub (stripQuotes v) md = .resolved x y →
          applyOp op x y = none → eval_filter expr md = .ok false)) := by
  constructor
  · intro hp
    simp [eval_filter, hp]
  · intro field sub op v hp
    refine ⟨fun hop => ⟨fun x y hres => ?_, fun hres => ?_⟩,
      fun hres => ?_, fun hop x y hres happ => ?_⟩
    · simp [eval_filter, hp, hres, hop]
    · simp [eval_filter, hp, hres]
    · simp [eval_filter, hp, hres]
    · simp [eval_filter, hp, hres, hop, happ]

/-- C10 witness: concrete instances of all four behaviours — a malformed
expression, `"size == 5"` raising `KeyError` on the unsupported `==` (size
resolves to the default 0 even on an empty record), exclusion before the
operator lookup for `"foo == 5"` on a record lacking `foo`, and an ordering
comparison against a non-numeric prompt returning `False`. -/
theorem c10_amended_witness :
    eval_filter "???" [] = .invalidExpr ∧
    eval_filter "size == 5" [] = .keyErrorOp "==" ∧
    eval_filter "foo == 5" [("bar", .vint 1)] = .ok false ∧
    eval_filter "prompt > 5" [("original_prompt", .vstr "abc")] = .ok false := by
  refine ⟨(c10_amended_filter_error_behaviour "???" []).1 rfl, ?_, ?_, ?_⟩
  · exact (((c10_amended_filter_error_behaviour "size == 5" []).2
      "size" none "==" "5" rfl).1 (by decide)).1 "0" "5" rfl
  · exact ((c10_amended_filter_error_behaviour "foo == 5"
      [("bar", .vint 1)]).2 "foo" none "==" "5" rfl).2.1 rfl
  · exact ((c10_amended_filter_error_behaviour "prompt > 5"
      [("original_prompt", .vstr "abc")]).2 "prompt" none ">" "5" rfl).2.2
      (by decide) "abc" "5" rfl rfl

end Mkimg
